import Mathlib

/-!
A shallow embedding of `src/index.js` of the `passport-google-googleapis`
repository: a Passport authentication strategy wrapping Google's OAuth2
authorization-code flow.

Modelling conventions:
* JavaScript values that the code inspects are modelled by the inductive
  `JVal` (`undefined`, `null`, booleans, numbers, strings, plain objects).
  JS truthiness is `JVal.truthy`; property access is `JVal.getField`
  (which, like JS, throws a `TypeError` — modelled as `Except.error ()` —
  when the receiver is `null` or `undefined`).
* Query parameters are `Option String` (a missing parameter is
  `undefined`, i.e. `none`).
* The external collaborators (the Google OAuth2 client's `getToken` and
  `generateAuthUrl`, the `oauth2.userinfo.get` profile fetch, and the
  `JSON.parse` builtin) are supplied as a `World` of total functions,
  so theorems quantify over every behaviour of them.
* `authenticate` is a pure function producing the ordered list of
  observable `Event`s of one invocation (collaborator calls and the
  terminal `success` / `fail` / `error` / `redirect` emissions).
-/

namespace GoogleAPIs

/-- The JavaScript values this development needs. -/
inductive JVal where
  | undefined
  | jnull
  | jbool (b : Bool)
  | jnum (n : Int)
  | jstr (s : String)
  | jobj (fields : List (String × JVal))

/-- JS truthiness of a value. -/
def JVal.truthy : JVal → Bool
  | .undefined => false
  | .jnull => false
  | .jbool b => b
  | .jnum n => n != 0
  | .jstr s => s != ""
  | .jobj _ => true

/-- JS property access `v[k]`: a `TypeError` (modelled as `Except.error ()`)
on `null`/`undefined`, the field's value (or `undefined`) on objects, and
`undefined` on other primitives. -/
def JVal.getField : JVal → String → Except Unit JVal
  | .undefined, _ => .error ()
  | .jnull, _ => .error ()
  | .jobj fs, k => .ok ((fs.lookup k).getD .undefined)
  | _, _ => .ok .undefined

/-- Total variant of property access: `undefined` wherever `getField`
would not return a field value. -/
def JVal.getFieldD (v : JVal) (k : String) : JVal :=
  match v with
  | .jobj fs => (fs.lookup k).getD .undefined
  | _ => .undefined

/-- JS `String(v)` coercion (for the values arising here). -/
def jvalToString : JVal → String
  | .undefined => "undefined"
  | .jnull => "null"
  | .jbool b => cond b "true" "false"
  | .jnum n => toString n
  | .jstr s => s
  | .jobj _ => "[object Object]"

/-- The `message` a JS `Error` gets from its first constructor argument:
empty for `undefined`, otherwise the string coercion. -/
def errCtorMessage : JVal → String
  | .undefined => ""
  | v => jvalToString v

/-- Truthiness of an optional string (a JS string variable that may be
`undefined`): present and non-empty. -/
def truthyS : Option String → Bool
  | none => false
  | some s => s != ""

/-- View an optional string as a JS value (`none` is `undefined`). -/
def optToJVal : Option String → JVal
  | none => .undefined
  | some s => .jstr s

/-- JS `a || b` on optional strings: the first operand when truthy,
otherwise the second. -/
def jsOrS (a b : Option String) : Option String :=
  if truthyS a then a else b

/-- JS `v || null` (used for `tokens.refresh_token || null`). -/
def jsOrNullV (v : JVal) : JVal :=
  if v.truthy then v else .jnull

/-- Error values produced by the strategy, tagged by their construction
site in the source:
* `ctor3 a1 a2 a3` is `new Error(a1, a2, a3)` (plain JS `Error` ignores
  the extra arguments, but we record what the code passed);
* `wrap message err` is `new Error(message, err)` with a string literal
  message;
* `raw v` is a value handed to `error` unchanged (a profile-fetch
  failure, a verify-callback `done` error, or a thrown exception). -/
inductive EVal where
  | ctor3 (a1 a2 a3 : JVal)
  | wrap (message : String) (cause : JVal)
  | raw (v : JVal)

/-- Model of `GoogleAPIsStrategy.prototype.parseErrorResponse(body, status)`:
parse `body` as JSON (via the supplied model of the `JSON.parse` builtin,
which throws on failure) and, if the result has a truthy `error` field,
build `new Error(json.error_description, json.error, json.error_uri)`;
otherwise return `null` (modelled as `none`).  A truthy `error` field
forces the parse result to be an object, so the `error_description` and
`error_uri` accesses cannot throw and are taken with `getFieldD`. -/
def parseErrorResponse (jsonParse : String → Except Unit JVal)
    (body : JVal) (_status : JVal) : Except Unit (Option EVal) :=
  match jsonParse (jvalToString body) with
  | .error u => .error u
  | .ok json =>
    match json.getField "error" with
    | .error u => .error u
    | .ok e =>
      if e.truthy then
        .ok (some (.ctor3 (json.getFieldD "error_description") e
          (json.getFieldD "error_uri")))
      else
        .ok none

/-- Model of `GoogleAPIsStrategy.prototype._createOAuthError(message, err)`:
when `err.statusCode && err.data`, try `parseErrorResponse(err.data,
err.statusCode)`, swallowing any exception it throws; if that produced
nothing, fall back to `new Error(message, err)`.  The two property reads
on `err` happen outside the `try`, so (as in JS) they can throw when
`err` is `null`/`undefined`. -/
def _createOAuthError (jsonParse : String → Except Unit JVal)
    (message : String) (err : JVal) : Except Unit EVal :=
  match err.getField "statusCode" with
  | .error u => .error u
  | .ok sc =>
    match err.getField "data" with
    | .error u => .error u
    | .ok d =>
      let e : Option EVal :=
        if sc.truthy && d.truthy then
          match parseErrorResponse jsonParse d sc with
          | .ok r => r
          | .error _ => none
        else none
      match e with
      | some ev => .ok ev
      | none => .ok (.wrap message err)

/-- The token object delivered by a successful `getToken` exchange
(fields the code reads; a missing field is `undefined`). -/
structure Tokens where
  access_token : JVal := .undefined
  refresh_token : JVal := .undefined

/-- One invocation `done(err, user, info)` of the `verified` callback by
the application's verify callback (missing arguments are `undefined`). -/
structure DoneCall where
  err : JVal := .undefined
  user : JVal := .undefined
  info : JVal := .undefined

/-- An argument passed to the verify callback: either the request object
(`reqArg`) or a JS value.  The trailing `verified` continuation the code
always appends is left implicit. -/
inductive VArg where
  | reqArg
  | val (v : JVal)

/-- The application-supplied verify callback: its declared parameter
count (`Function.length`, which the dispatch inspects) and its behaviour
on an argument list — the ordered `done` invocations it makes before
returning, and the exception it then throws out of the dispatch `try`,
if any. -/
structure VerifyFn where
  arity : Nat
  run : List VArg → List DoneCall × Option JVal

/-- The Google OAuth2 client's construction data
(`new google.auth.OAuth2(clientID, clientSecret, redirectURL)`). -/
structure OAuth2Client where
  clientID : String
  clientSecret : String
  redirectURL : String

/-- A `GoogleAPIsStrategy` instance.  The constructor assigns `name`,
`_verify` and `oauth2Client` and nothing else; `_scope` and
`_passReqToCallback` are read by `authorizationParams` and
`authenticate` but never assigned anywhere in the source, so on a
constructed strategy they are JS `undefined` — modelled by the defaults
`none` and `false` (undefined is falsy). -/
structure Strategy where
  name : String := "googleapis"
  _verify : VerifyFn
  oauth2Client : OAuth2Client
  _scope : Option String := none
  _passReqToCallback : Bool := false

/-- The query parameters `authenticate` reads (each may be absent). -/
structure Query where
  error : Option String := none
  error_description : Option String := none
  error_uri : Option String := none
  code : Option String := none

/-- The inbound request: `req.query` may itself be absent. -/
structure Request where
  query : Option Query := none

/-- Options accepted at `authenticate` call time. -/
structure AuthOptions where
  scope : Option String := none
  accessType : Option String := none
  access_type : Option String := none

/-- The external collaborators of one `authenticate` invocation, as total
functions:
* `getToken code` is the `(err, tokens)` pair the OAuth2 client's
  `getToken` passes to its callback (the error-path is taken when `err`
  is truthy);
* `userinfo creds` is the `(err, profile)` pair `oauth2.userinfo.get`
  passes to its callback, as a function of the client's credentials at
  call time (`none` = no credentials set);
* `genAuthUrl` is the OAuth2 client's `generateAuthUrl`;
* `jsonParse` models the `JSON.parse` builtin (throwing on failure). -/
structure World where
  getToken : String → JVal × Tokens
  userinfo : Option Tokens → JVal × JVal
  genAuthUrl : List (String × String) → String
  jsonParse : String → Except Unit JVal

/-- Model of `GoogleAPIsStrategy.prototype.authorizationParams(options)`: an
initially empty parameter object, a `scope` entry from
`options.scope || this._scope` when that is truthy, and an
`access_type` entry from `options.accessType || options.access_type`
when that is truthy.  The object is modelled as an association list in
insertion order. -/
def Strategy.authorizationParams (s : Strategy) (options : AuthOptions) :
    List (String × String) :=
  let scope := jsOrS options.scope s._scope
  let p1 : List (String × String) :=
    if truthyS scope then [("scope", scope.getD "")] else []
  let atype := jsOrS options.accessType options.access_type
  let p2 : List (String × String) :=
    if truthyS atype then [("access_type", atype.getD "")] else []
  p1 ++ p2

/-- The observable events of one `authenticate` invocation, in order:
the four Passport terminations (`success`, `fail`, `error`, `redirect`)
and the collaborator interactions the claims talk about. -/
inductive Event where
  | redirect (url : String)
  | success (user info : JVal)
  | fail (challenge : JVal)
  | error (e : EVal)
  | getTokenCall (code : String)
  | setCredentials (tokens : Tokens)
  | userinfoCall (creds : Option Tokens)
  | verifyCall (args : List VArg)

/-- The inner `verified(err, user, info)` function of `authenticate`:
truthy `err` → `error(err)`; otherwise falsy `user` → `fail(info)`;
otherwise `success(user, info)`. -/
def verified (d : DoneCall) : Event :=
  if d.err.truthy then .error (.raw d.err)
  else if d.user.truthy then .success d.user d.info
  else .fail d.info

/-- The arity-sensitive argument lists of the verify-callback dispatch in
`authenticate` (the trailing `verified` continuation is implicit). -/
def dispatchArgs (s : Strategy) (accessToken refreshToken profile : JVal) :
    List VArg :=
  if s._passReqToCallback then
    if s._verify.arity = 6 then
      [.reqArg, .val accessToken, .val refreshToken, .val (.jobj []),
        .val profile]
    else
      [.reqArg, .val accessToken, .val refreshToken, .val profile]
  else
    if s._verify.arity = 5 then
      [.val accessToken, .val refreshToken, .val (.jobj []), .val profile]
    else
      [.val accessToken, .val refreshToken, .val profile]

/-- The `catch(ex)` handler of the verify dispatch: an exception thrown
by the verify callback is emitted as `error(ex)`; no throw, no event. -/
def throwTail : Option JVal → List Event
  | some ex => [.error (.raw ex)]
  | none => []

/-- The verify-callback dispatch of `authenticate`: compute the argument
list, run the callback inside `try`; each synchronous `done` call emits
its `verified` outcome, and an exception thrown by the callback is
caught and emitted as `error`. -/
def verifyStage (s : Strategy) (accessToken refreshToken profile : JVal) :
    List Event :=
  let args := dispatchArgs s accessToken refreshToken profile
  let r := s._verify.run args
  .verifyCall args :: (r.1.map verified ++ throwTail r.2)

/-- The profile-fetch continuation of `authenticate`:
`oauth2.userinfo.get({auth: self.oauth2Client}, ...)` on the client now
holding `toks`; a truthy fetch error is emitted raw, otherwise the
verify dispatch runs with `tokens.access_token` and
`tokens.refresh_token || null`. -/
def profileStage (s : Strategy) (w : World) (toks : Tokens) : List Event :=
  let pr := w.userinfo (some toks)
  .userinfoCall (some toks) ::
    (if pr.1.truthy then
      [.error (.raw pr.1)]
    else
      verifyStage s toks.access_token (jsOrNullV toks.refresh_token) pr.2)

/-- The token-exchange continuation of `authenticate`:
`self.oauth2Client.getToken(code, ...)`; a truthy exchange error is
wrapped through `_createOAuthError('Failed to obtain access token', err)`
and emitted (were that wrapping itself to throw — impossible here, since
the error is truthy — the exception would propagate and nothing would be
emitted); otherwise `setCredentials(tokens)` is applied and the profile
fetch runs. -/
def tokenStage (s : Strategy) (w : World) (code : String) : List Event :=
  let r := w.getToken code
  .getTokenCall code ::
    (if r.1.truthy then
      match _createOAuthError w.jsonParse "Failed to obtain access token"
          r.1 with
      | .ok ev => [.error ev]
      | .error _ => []
    else
      .setCredentials r.2 :: profileStage s w r.2)

/-- The initial leg of `authenticate`: redirect to
`this.oauth2Client.generateAuthUrl(this.authorizationParams(options))`. -/
def redirectStage (s : Strategy) (w : World) (options : Option AuthOptions) :
    List Event :=
  [.redirect (w.genAuthUrl (s.authorizationParams (options.getD {})))]

/-- Model of `GoogleAPIsStrategy.prototype.authenticate(req, options)`: the error
branch (`req.query && req.query.error`), the code branch
(`req.query && req.query.code`), and otherwise the redirect leg. -/
def authenticate (s : Strategy) (w : World) (req : Request)
    (options : Option AuthOptions) : List Event :=
  match req.query with
  | none => redirectStage s w options
  | some q =>
    if truthyS q.error then
      if q.error = some "access_denied" then
        [.fail (.jobj [("message", optToJVal q.error_description)])]
      else
        [.error (.ctor3 (optToJVal q.error_description) (optToJVal q.error)
          (optToJVal q.error_uri))]
    else if truthyS q.code then
      tokenStage s w (q.code.getD "")
    else
      redirectStage s w options

/-- Construction options of `GoogleAPIsStrategy` (the configuration
surface named by the spec; a missing property is `none`). -/
structure CtorOptions where
  clientID : Option String := none
  clientSecret : Option String := none
  redirectURL : Option String := none
  scope : Option String := none

/-- The first constructor argument: an options object, a function (the
`typeof options === 'function'` calling convention), or `undefined`. -/
inductive CtorArg where
  | opts (o : CtorOptions)
  | vfn (f : VerifyFn)
  | undef

/-- The `GoogleAPIsStrategy(options, verify)` constructor: when the first
argument is a function it becomes the verify callback and options become
`undefined`; missing options default to `{}`; a missing verify callback
or a falsy `clientID` / `clientSecret` / `redirectURL` throws a
`TypeError` (modelled as `Except.error` with the message).  The
constructor assigns `name`, `_verify` and `oauth2Client` only. -/
def GoogleAPIsStrategy (arg1 : CtorArg) (arg2 : Option VerifyFn) :
    Except String Strategy :=
  let p : Option CtorOptions × Option VerifyFn :=
    match arg1 with
    | .vfn f => (none, some f)
    | .opts o => (some o, arg2)
    | .undef => (none, arg2)
  let options := p.1.getD {}
  match p.2 with
  | none => .error "GoogleAPIsStrategy requires a verify callback"
  | some verify =>
    if ¬ truthyS options.clientID then
      .error "GoogleAPIsStrategy requires a clientID option"
    else if ¬ truthyS options.clientSecret then
      .error "GoogleAPIsStrategy requires a clientSecret option"
    else if ¬ truthyS options.redirectURL then
      .error "GoogleAPIsStrategy requires a redirectURL option"
    else
      .ok { _verify := verify
            oauth2Client :=
              { clientID := options.clientID.getD ""
                clientSecret := options.clientSecret.getD ""
                redirectURL := options.redirectURL.getD "" } }

/-- Is an event one of the three Passport terminations
`success` / `fail` / `error`? -/
def Event.isSFE : Event → Bool
  | .success _ _ => true
  | .fail _ => true
  | .error _ => true
  | _ => false

/-- Is an event a termination of the attempt
(`success` / `fail` / `error` / `redirect`)? -/
def Event.isOutcome : Event → Bool
  | .success _ _ => true
  | .fail _ => true
  | .error _ => true
  | .redirect _ => true
  | _ => false

/-- Is an event an `error` emission? -/
def Event.isError : Event → Bool
  | .error _ => true
  | _ => false

/-- Is an event an invocation of the verify callback? -/
def Event.isVerifyCall : Event → Bool
  | .verifyCall _ => true
  | _ => false

/-- Is an event an invocation of the profile fetch? -/
def Event.isUserinfoCall : Event → Bool
  | .userinfoCall _ => true
  | _ => false

/-- Number of `success` / `fail` / `error` emissions in a trace. -/
def countSFE (tr : List Event) : Nat := (tr.filter Event.isSFE).length

/-- Number of terminations (`success`/`fail`/`error`/`redirect`). -/
def countOutcome (tr : List Event) : Nat :=
  (tr.filter Event.isOutcome).length

/-- A verify callback honouring its contract: on any argument list it
either calls `done` exactly once and does not throw, or calls `done` not
at all and throws. -/
def WellBehavedVerify (v : VerifyFn) : Prop :=
  ∀ args, ((v.run args).1.length = 1 ∧ (v.run args).2 = none) ∨
    ((v.run args).1 = [] ∧ (v.run args).2 ≠ none)

/-! ### Helper lemmas -/

theorem truthy_getField {v : JVal} (k : String) (h : v.truthy = true) :
    v.getField k = .ok (v.getFieldD k) := by
  cases v <;> simp_all [JVal.truthy, JVal.getField, JVal.getFieldD]

theorem createOAuthError_ok (p : String → Except Unit JVal) (m : String)
    {err : JVal} (h : err.truthy = true) :
    ∃ ev, _createOAuthError p m err = .ok ev := by
  unfold _createOAuthError
  rw [truthy_getField "statusCode" h, truthy_getField "data" h]
  dsimp only
  split
  · exact ⟨_, rfl⟩
  · exact ⟨_, rfl⟩

theorem verified_isOutcome (d : DoneCall) :
    (verified d).isOutcome = true := by
  unfold verified
  split
  · rfl
  · split <;> rfl

theorem verified_isSFE (d : DoneCall) :
    (verified d).isSFE = true := by
  unfold verified
  split
  · rfl
  · split <;> rfl

theorem countOutcome_verifyStage (s : Strategy) (a r p : JVal)
    (h : WellBehavedVerify s._verify) :
    countOutcome (verifyStage s a r p) = 1 := by
  unfold verifyStage
  dsimp only
  rcases h (dispatchArgs s a r p) with ⟨h1, h2⟩ | ⟨h1, h2⟩
  · obtain ⟨d, hd⟩ := List.length_eq_one.mp h1
    rw [hd, h2]
    simp only [List.map, List.append_nil]
    have hv := verified_isOutcome d
    generalize verified d = ev at hv ⊢
    cases ev <;> simp_all [countOutcome, List.filter, Event.isOutcome]
  · obtain ⟨ex, hex⟩ := Option.ne_none_iff_exists'.mp h2
    rw [h1, hex]
    simp [countOutcome, List.filter, Event.isOutcome]

theorem countOutcome_profileStage (s : Strategy) (w : World) (toks : Tokens)
    (h : WellBehavedVerify s._verify) :
    countOutcome (profileStage s w toks) = 1 := by
  unfold profileStage
  dsimp only
  split
  · simp [countOutcome, List.filter, Event.isOutcome]
  · have := countOutcome_verifyStage s toks.access_token
      (jsOrNullV toks.refresh_token) (w.userinfo (some toks)).2 h
    simp [countOutcome, List.filter, Event.isOutcome] at this ⊢
    exact this

theorem countOutcome_tokenStage (s : Strategy) (w : World) (code : String)
    (h : WellBehavedVerify s._verify) :
    countOutcome (tokenStage s w code) = 1 := by
  unfold tokenStage
  dsimp only
  split
  · next ht =>
    obtain ⟨ev, hev⟩ :=
      createOAuthError_ok w.jsonParse "Failed to obtain access token" ht
    rw [hev]
    simp [countOutcome, List.filter, Event.isOutcome]
  · have := countOutcome_profileStage s w (w.getToken code).2 h
    simp [countOutcome, List.filter, Event.isOutcome] at this ⊢
    exact this

theorem authenticate_code_branch (s : Strategy) (w : World) (req : Request)
    (o : Option AuthOptions) (q : Query) (hq : req.query = some q)
    (he : truthyS q.error = false) (hct : truthyS q.code = true) :
    authenticate s w req o = tokenStage s w (q.code.getD "") := by
  unfold authenticate
  rw [hq]
  dsimp only
  rw [if_neg (by simp [he]), if_pos hct]

theorem tokenStage_error (s : Strategy) (w : World) (c : String) (e : JVal)
    (toks : Tokens) (hTok : w.getToken c = (e, toks))
    (hErr : e.truthy = true) :
    ∃ ev, _createOAuthError w.jsonParse "Failed to obtain access token" e
        = .ok ev ∧
      tokenStage s w c = [.getTokenCall c, .error ev] := by
  obtain ⟨ev, hev⟩ :=
    createOAuthError_ok w.jsonParse "Failed to obtain access token" hErr
  refine ⟨ev, hev, ?_⟩
  unfold tokenStage
  dsimp only
  rw [hTok]
  dsimp only
  rw [if_pos hErr, hev]

theorem tokenStage_success (s : Strategy) (w : World) (c : String) (e : JVal)
    (toks : Tokens) (hTok : w.getToken c = (e, toks))
    (hOk : e.truthy = false) :
    tokenStage s w c =
      .getTokenCall c :: .setCredentials toks :: profileStage s w toks := by
  unfold tokenStage
  dsimp only
  rw [hTok]
  dsimp only
  rw [if_neg (by simp [hOk])]

theorem profileStage_success (s : Strategy) (w : World) (toks : Tokens)
    (perr profile : JVal) (hui : w.userinfo (some toks) = (perr, profile))
    (hpOk : perr.truthy = false) :
    profileStage s w toks =
      .userinfoCall (some toks) ::
        verifyStage s toks.access_token (jsOrNullV toks.refresh_token)
          profile := by
  unfold profileStage
  dsimp only
  rw [hui]
  dsimp only
  rw [if_neg (by simp [hpOk])]

theorem verifyStage_run (s : Strategy) (a r p : JVal) (ds : List DoneCall)
    (th : Option JVal) (hrun : s._verify.run (dispatchArgs s a r p) = (ds, th)) :
    verifyStage s a r p =
      .verifyCall (dispatchArgs s a r p) ::
        (ds.map verified ++ throwTail th) := by
  unfold verifyStage
  dsimp only
  rw [hrun]

theorem verified_not_verifyCall (d : DoneCall) :
    (verified d).isVerifyCall = false := by
  unfold verified
  split
  · rfl
  · split <;> rfl

theorem filter_isVerifyCall_map_verified (ds : List DoneCall) :
    (ds.map verified).filter Event.isVerifyCall = [] := by
  induction ds with
  | nil => rfl
  | cons d ds ih => simp [List.filter, verified_not_verifyCall d, ih]

/-! ### Concrete fixtures (used by witnesses and counterexamples) -/

/-- A 4-parameter verify callback that synchronously calls
`done(undefined, "u", "i")` once and returns. -/
def sampleVerify : VerifyFn :=
  { arity := 4
    run := fun _ => ([{ user := .jstr "u", info := .jstr "i" }], none) }

/-- A strategy as the constructor builds it, with `sampleVerify`. -/
def sampleStrategy : Strategy :=
  { _verify := sampleVerify
    oauth2Client := ⟨"id", "sec", "https://cb"⟩ }

/-- A collaborator world: the token exchange succeeds with
`{access_token: "AT1"}` (no `refresh_token`), the profile fetch succeeds
with `{id: "p1"}`, and `generateAuthUrl` serialises its parameters. -/
def sampleWorld : World :=
  { getToken := fun _ => (.undefined, { access_token := .jstr "AT1" })
    userinfo := fun _ => (.undefined, .jobj [("id", .jstr "p1")])
    genAuthUrl := fun ps =>
      "https://auth?" ++
        String.intercalate "&" (ps.map fun kv => kv.1 ++ "=" ++ kv.2)
    jsonParse := fun _ => .error () }

/-- A verify callback that synchronously calls `done(undefined, "u")`
and then throws `"boom"`. -/
def throwingVerify : VerifyFn :=
  { arity := 4
    run := fun _ => ([{ user := .jstr "u" }], some (.jstr "boom")) }

/-- The `sampleStrategy` record with the done-then-throw verify callback. -/
def throwingStrategy : Strategy :=
  { sampleStrategy with _verify := throwingVerify }

/-! ### Claim C1 -/

/-- Counterexample to claim C1 as stated: with a verify callback that
calls `done(undefined, "u")` synchronously and then throws, the `try` /
`catch` around the dispatch emits `error` after `verified` has already
emitted `success`, so a request carrying `code=abc` produces two
terminal outcomes among success/fail/error, not exactly one. -/
theorem claim1_counterexample :
    countSFE (authenticate throwingStrategy sampleWorld
      { query := some { code := some "abc" } } none) = 2 ∧
    countSFE (authenticate throwingStrategy sampleWorld
      { query := some { code := some "abc" } } none) ≠ 1 := by
  exact ⟨rfl, by decide⟩

/-- Claim C1 (amended): counting the redirect of the initial leg as a
terminal outcome, every invocation of `authenticate` produces exactly
one terminal outcome among success, fail, error and redirect, provided
the verify callback, whenever invoked, either calls `done` exactly once
without throwing, or throws without having called `done`.  (A verify
callback that calls `done` synchronously and then throws produces two
outcomes, per the counterexample.) -/
theorem claim1_amended_single_outcome (s : Strategy) (w : World)
    (req : Request) (o : Option AuthOptions)
    (h : WellBehavedVerify s._verify) :
    countOutcome (authenticate s w req o) = 1 := by
  obtain ⟨qopt⟩ := req
  unfold authenticate
  cases qopt with
  | none => simp [redirectStage, countOutcome, List.filter, Event.isOutcome]
  | some q =>
    dsimp only
    split
    · split <;> simp [countOutcome, List.filter, Event.isOutcome]
    · split
      · exact countOutcome_tokenStage s w (q.code.getD "") h
      · simp [redirectStage, countOutcome, List.filter, Event.isOutcome]

/-- Witness for the amended C1 at a concrete well-behaved instance. -/
theorem claim1_amended_witness :
    WellBehavedVerify sampleStrategy._verify ∧
    countOutcome (authenticate sampleStrategy sampleWorld
      { query := some { code := some "abc" } } none) = 1 :=
  ⟨fun _ => Or.inl ⟨rfl, rfl⟩,
    claim1_amended_single_outcome sampleStrategy sampleWorld
      { query := some { code := some "abc" } } none
      (fun _ => Or.inl ⟨rfl, rfl⟩)⟩

/-! ### Claim C2 -/

/-- Counterexample to claim C2 as stated: a query that carries the
`error` field with the (falsy) empty-string value is not routed to the
error branch at all — `authenticate` redirects and emits none of
success/fail/error, although the claim demands `error` exactly once for
any non-`access_denied` value of the field. -/
theorem claim2_counterexample :
    authenticate sampleStrategy sampleWorld
      { query := some { error := some "" } } none
      = [.redirect "https://auth?"] ∧
    countSFE (authenticate sampleStrategy sampleWorld
      { query := some { error := some "" } } none) = 0 :=
  ⟨rfl, rfl⟩

/-- Claim C2 (amended): for every request whose query carries a
non-empty (truthy) `error` field: if its value is `"access_denied"`,
`authenticate` terminates with `fail` exactly once, passing the query's
`error_description` as the challenge (wrapped as `{message:
description}`), and never calls success or error; for any other value it
terminates with `error` exactly once, with
`new Error(error_description, error, error_uri)`. -/
theorem claim2_amended_error_branch (s : Strategy) (w : World)
    (req : Request) (o : Option AuthOptions) (q : Query)
    (hq : req.query = some q) (ht : truthyS q.error = true) :
    (q.error = some "access_denied" →
      authenticate s w req o =
        [.fail (.jobj [("message", optToJVal q.error_description)])]) ∧
    (q.error ≠ some "access_denied" →
      authenticate s w req o =
        [.error (.ctor3 (optToJVal q.error_description)
          (optToJVal q.error) (optToJVal q.error_uri))]) := by
  unfold authenticate
  rw [hq]
  dsimp only
  refine ⟨fun he => ?_, fun he => ?_⟩
  · rw [if_pos ht, if_pos he]
  · rw [if_pos ht, if_neg he]

/-- A request reporting `error=access_denied` with a description. -/
def reqDenied : Request :=
  { query := some { error := some "access_denied", error_description := some "denied" } }

/-- A request reporting an unrecognised error value. -/
def reqOtherErr : Request :=
  { query := some { error := some "weird", error_description := some "d" } }

/-- Witness for the amended C2, at an `access_denied` request and at a
request with a different error value. -/
theorem claim2_amended_witness :
    authenticate sampleStrategy sampleWorld reqDenied none
      = [.fail (.jobj [("message", .jstr "denied")])] ∧
    authenticate sampleStrategy sampleWorld reqOtherErr none
      = [.error (.ctor3 (.jstr "d") (.jstr "weird") .undefined)] :=
  ⟨(claim2_amended_error_branch sampleStrategy sampleWorld reqDenied none _
      rfl rfl).1 rfl,
    (claim2_amended_error_branch sampleStrategy sampleWorld reqOtherErr none
      _ rfl rfl).2 (by decide)⟩

/-! ### Claim C3 -/

/-- Claim C3: for every request whose query carries neither a `code`
field nor an `error` field (including a request with no query object at
all), `authenticate` issues exactly one redirect, to the URL produced by
`generateAuthUrl` applied to `authorizationParams(options)`, and never
calls success, fail, or error. -/
theorem claim3_redirect (s : Strategy) (w : World) (req : Request)
    (o : Option AuthOptions)
    (h : req.query = none ∨
      ∃ q, req.query = some q ∧ q.code = none ∧ q.error = none) :
    authenticate s w req o =
      [.redirect (w.genAuthUrl (s.authorizationParams (o.getD {})))] := by
  rcases h with h | ⟨q, hq, hc, he⟩
  · unfold authenticate
    rw [h]
    rfl
  · unfold authenticate
    rw [hq]
    dsimp only
    simp [he, hc, truthyS, redirectStage]

/-- Witness for C3 at a request with an empty query object. -/
theorem claim3_witness :
    authenticate sampleStrategy sampleWorld { query := some {} } none
      = [.redirect "https://auth?"] :=
  claim3_redirect sampleStrategy sampleWorld { query := some {} } none
    (Or.inr ⟨{}, rfl, rfl, rfl⟩)

/-! ### Claim C4 -/

/-- Claim C4: for a request whose query carries a `code` and no `error`
field, when the token exchange happens and fails (the code is non-empty
so `getToken` runs, and it yields a truthy error), `authenticate`
terminates with `error` exactly once, passing
`_createOAuthError('Failed to obtain access token', err)`, and the
profile fetch is never invoked. -/
theorem claim4_token_exchange_failure (s : Strategy) (w : World)
    (req : Request) (o : Option AuthOptions) (q : Query) (c : String)
    (e : JVal) (toks : Tokens)
    (hq : req.query = some q) (he : q.error = none) (hc : q.code = some c)
    (hct : truthyS q.code = true)
    (hTok : w.getToken c = (e, toks)) (hErr : e.truthy = true) :
    ∃ ev, _createOAuthError w.jsonParse "Failed to obtain access token" e
        = .ok ev ∧
      authenticate s w req o = [.getTokenCall c, .error ev] ∧
      (authenticate s w req o).filter Event.isUserinfoCall = [] := by
  have h1 := authenticate_code_branch s w req o q hq (by rw [he]; rfl) hct
  rw [show q.code.getD "" = c from by rw [hc]; rfl] at h1
  obtain ⟨ev, hev, h2⟩ := tokenStage_error s w c e toks hTok hErr
  refine ⟨ev, hev, ?_, ?_⟩
  · rw [h1, h2]
  · rw [h1, h2]
    rfl

/-- A world whose token exchange fails with a bare string error. -/
def tokenFailWorld : World :=
  { sampleWorld with getToken := fun _ => (.jstr "boom", {}) }

/-- A request carrying `code=abc` and nothing else. -/
def reqCode : Request := { query := some { code := some "abc" } }

/-- Witness for C4: a failing exchange yields exactly the wrapped error
and no profile fetch. -/
theorem claim4_witness :
    ∃ ev, _createOAuthError tokenFailWorld.jsonParse
        "Failed to obtain access token" (.jstr "boom") = .ok ev ∧
      authenticate sampleStrategy tokenFailWorld reqCode none
        = [.getTokenCall "abc", .error ev] ∧
      (authenticate sampleStrategy tokenFailWorld reqCode none).filter
        Event.isUserinfoCall = [] :=
  claim4_token_exchange_failure sampleStrategy tokenFailWorld reqCode none
    { code := some "abc" } "abc" (.jstr "boom") {} rfl rfl rfl rfl rfl rfl

/-! ### Claim C5 -/

/-- Claim C5: on a successful token exchange the refresh token is
resolved by `tokens.refresh_token || null` — never `undefined`, the
token value itself when that is truthy, and the `null` sentinel when the
field is absent — credentials are applied via `setCredentials` before
the profile fetch, and the profile fetch receives the credentialed
client; with request-passthrough off and a non-5-ary callback, the
verify callback receives exactly (accessToken, refreshToken, profile),
which at the token set `{access_token: "AT1"}` is ("AT1", null,
profile) (see the witness). -/
theorem claim5_token_success (s : Strategy) (w : World) (req : Request)
    (o : Option AuthOptions) (q : Query) (c : String) (e : JVal)
    (toks : Tokens) (perr profile : JVal)
    (hq : req.query = some q) (he : truthyS q.error = false)
    (hc : q.code = some c) (hct : truthyS q.code = true)
    (hTok : w.getToken c = (e, toks)) (hOk : e.truthy = false)
    (hui : w.userinfo (some toks) = (perr, profile))
    (hpOk : perr.truthy = false) :
    jsOrNullV toks.refresh_token ≠ .undefined ∧
    (toks.refresh_token.truthy = true →
      jsOrNullV toks.refresh_token = toks.refresh_token) ∧
    (toks.refresh_token = .undefined →
      jsOrNullV toks.refresh_token = .jnull) ∧
    (authenticate s w req o).take 4 =
      [.getTokenCall c, .setCredentials toks, .userinfoCall (some toks),
        .verifyCall (dispatchArgs s toks.access_token
          (jsOrNullV toks.refresh_token) profile)] ∧
    (s._passReqToCallback = false → s._verify.arity ≠ 5 →
      dispatchArgs s toks.access_token (jsOrNullV toks.refresh_token)
          profile
        = [.val toks.access_token, .val (jsOrNullV toks.refresh_token),
            .val profile]) := by
  refine ⟨?_, ?_, ?_, ?_, ?_⟩
  · unfold jsOrNullV
    split
    · next htr =>
      intro hcontra
      rw [hcontra] at htr
      exact absurd htr (by decide)
    · intro hcontra
      exact JVal.noConfusion hcontra
  · intro htr
    unfold jsOrNullV
    rw [if_pos htr]
  · intro habs
    unfold jsOrNullV
    rw [habs]
    rfl
  · have h1 := authenticate_code_branch s w req o q hq he hct
    rw [show q.code.getD "" = c from by rw [hc]; rfl] at h1
    have h2 := tokenStage_success s w c e toks hTok hOk
    have h3 := profileStage_success s w toks perr profile hui hpOk
    rcases hrun : s._verify.run (dispatchArgs s toks.access_token
      (jsOrNullV toks.refresh_token) profile) with ⟨ds, th⟩
    have h4 := verifyStage_run s toks.access_token
      (jsOrNullV toks.refresh_token) profile ds th hrun
    rw [h1, h2, h3, h4]
    rfl
  · intro hflag harity
    unfold dispatchArgs
    rw [if_neg (by simp [hflag]), if_neg harity]

/-- Witness for C5: the end-to-end `code=abc` run with token set
`{access_token: "AT1"}` invokes the verify callback with
("AT1", null, profile). -/
theorem claim5_witness :
    (authenticate sampleStrategy sampleWorld reqCode none).take 4 =
      [.getTokenCall "abc",
        .setCredentials { access_token := .jstr "AT1" },
        .userinfoCall (some { access_token := .jstr "AT1" }),
        .verifyCall (dispatchArgs sampleStrategy (.jstr "AT1") .jnull
          (.jobj [("id", .jstr "p1")]))] ∧
    dispatchArgs sampleStrategy (.jstr "AT1") .jnull
        (.jobj [("id", .jstr "p1")])
      = [.val (.jstr "AT1"), .val .jnull, .val (.jobj [("id", .jstr "p1")])] :=
  ⟨(claim5_token_success sampleStrategy sampleWorld reqCode none
      { code := some "abc" } "abc" .undefined { access_token := .jstr "AT1" }
      .undefined (.jobj [("id", .jstr "p1")]) rfl rfl rfl rfl rfl rfl rfl
      rfl).2.2.2.1,
    (claim5_token_success sampleStrategy sampleWorld reqCode none
      { code := some "abc" } "abc" .undefined { access_token := .jstr "AT1" }
      .undefined (.jobj [("id", .jstr "p1")]) rfl rfl rfl rfl rfl rfl rfl
      rfl).2.2.2.2 rfl (by decide)⟩

/-! ### Claim C6 -/

/-- Claim C6: on every successful profile fetch the verify callback is
invoked exactly once, with the argument list determined by its declared
parameter count: passthrough off — 5 parameters get (accessToken,
refreshToken, {}, profile), any other arity (accessToken, refreshToken,
profile); passthrough on — 6 parameters get (req, accessToken,
refreshToken, {}, profile), any other arity (req, accessToken,
refreshToken, profile); the `{}` slot is the always-empty reserved
object and the trailing `done` continuation is implicit. -/
theorem claim6_arity_dispatch (s : Strategy) (w : World) (req : Request)
    (o : Option AuthOptions) (q : Query) (c : String) (e : JVal)
    (toks : Tokens) (perr profile : JVal)
    (hq : req.query = some q) (he : truthyS q.error = false)
    (hc : q.code = some c) (hct : truthyS q.code = true)
    (hTok : w.getToken c = (e, toks)) (hOk : e.truthy = false)
    (hui : w.userinfo (some toks) = (perr, profile))
    (hpOk : perr.truthy = false) :
    (authenticate s w req o).filter Event.isVerifyCall
      = [.verifyCall (dispatchArgs s toks.access_token
          (jsOrNullV toks.refresh_token) profile)] ∧
    (s._passReqToCallback = false → s._verify.arity = 5 →
      dispatchArgs s toks.access_token (jsOrNullV toks.refresh_token) profile
        = [.val toks.access_token, .val (jsOrNullV toks.refresh_token),
            .val (.jobj []), .val profile]) ∧
    (s._passReqToCallback = false → s._verify.arity ≠ 5 →
      dispatchArgs s toks.access_token (jsOrNullV toks.refresh_token) profile
        = [.val toks.access_token, .val (jsOrNullV toks.refresh_token),
            .val profile]) ∧
    (s._passReqToCallback = true → s._verify.arity = 6 →
      dispatchArgs s toks.access_token (jsOrNullV toks.refresh_token) profile
        = [.reqArg, .val toks.access_token,
            .val (jsOrNullV toks.refresh_token), .val (.jobj []),
            .val profile]) ∧
    (s._passReqToCallback = true → s._verify.arity ≠ 6 →
      dispatchArgs s toks.access_token (jsOrNullV toks.refresh_token) profile
        = [.reqArg, .val toks.access_token,
            .val (jsOrNullV toks.refresh_token), .val profile]) := by
  refine ⟨?_, ?_, ?_, ?_, ?_⟩
  · have h1 := authenticate_code_branch s w req o q hq he hct
    rw [show q.code.getD "" = c from by rw [hc]; rfl] at h1
    have h2 := tokenStage_success s w c e toks hTok hOk
    have h3 := profileStage_success s w toks perr profile hui hpOk
    rcases hrun : s._verify.run (dispatchArgs s toks.access_token
      (jsOrNullV toks.refresh_token) profile) with ⟨ds, th⟩
    have h4 := verifyStage_run s toks.access_token
      (jsOrNullV toks.refresh_token) profile ds th hrun
    rw [h1, h2, h3, h4]
    simp only [List.filter, List.filter_append, Event.isVerifyCall,
      filter_isVerifyCall_map_verified]
    cases th <;> simp [List.filter, Event.isVerifyCall, throwTail]
  · intro hflag harity
    unfold dispatchArgs
    rw [if_neg (by simp [hflag]), if_pos harity]
  · intro hflag harity
    unfold dispatchArgs
    rw [if_neg (by simp [hflag]), if_neg harity]
  · intro hflag harity
    unfold dispatchArgs
    rw [if_pos hflag, if_pos harity]
  · intro hflag harity
    unfold dispatchArgs
    rw [if_pos hflag, if_neg harity]

/-- A 5-parameter verify callback (same behaviour as `sampleVerify`). -/
def fiveAryVerify : VerifyFn :=
  { arity := 5
    run := fun _ => ([{ user := .jstr "u", info := .jstr "i" }], none) }

/-- The `sampleStrategy` record with the 5-parameter verify callback. -/
def fiveAryStrategy : Strategy :=
  { sampleStrategy with _verify := fiveAryVerify }

/-- Witness for C6: with passthrough disabled, a 5-parameter callback is
invoked exactly once, with (accessToken, refreshToken, {}, profile) —
not the 4-argument form. -/
theorem claim6_witness :
    (authenticate fiveAryStrategy sampleWorld reqCode none).filter
        Event.isVerifyCall
      = [.verifyCall [.val (.jstr "AT1"), .val .jnull, .val (.jobj []),
          .val (.jobj [("id", .jstr "p1")])]] :=
  ((claim6_arity_dispatch fiveAryStrategy sampleWorld reqCode none
      { code := some "abc" } "abc" .undefined { access_token := .jstr "AT1" }
      .undefined (.jobj [("id", .jstr "p1")]) rfl rfl rfl rfl rfl rfl rfl
      rfl).1).trans
    (by rw [(claim6_arity_dispatch fiveAryStrategy sampleWorld reqCode none
      { code := some "abc" } "abc" .undefined { access_token := .jstr "AT1" }
      .undefined (.jobj [("id", .jstr "p1")]) rfl rfl rfl rfl rfl rfl rfl
      rfl).2.1 rfl rfl]
        rfl)

/-! ### Claim C7 -/

/-- Claim C7: the verify callback's terminal `done(err, user, info)`
resolves the attempt — truthy `err` → `error(err)`; falsy `err` and
falsy `user` → `fail(info)`; otherwise → `success(user, info)` — and a
synchronous exception thrown while invoking the verify callback is
caught and surfaces as `error` with the thrown value. -/
theorem claim7_done_resolution (s : Strategy) (w : World) (req : Request)
    (o : Option AuthOptions) (q : Query) (c : String) (e : JVal)
    (toks : Tokens) (perr profile : JVal) (args : List VArg)
    (hq : req.query = some q) (he : truthyS q.error = false)
    (hc : q.code = some c) (hct : truthyS q.code = true)
    (hTok : w.getToken c = (e, toks)) (hOk : e.truthy = false)
    (hui : w.userinfo (some toks) = (perr, profile))
    (hpOk : perr.truthy = false)
    (hargs : args = dispatchArgs s toks.access_token
      (jsOrNullV toks.refresh_token) profile) :
    (∀ d : DoneCall, s._verify.run args = ([d], none) →
      ((d.err.truthy = true →
        authenticate s w req o =
          [.getTokenCall c, .setCredentials toks, .userinfoCall (some toks),
            .verifyCall args, .error (.raw d.err)]) ∧
      (d.err.truthy = false → d.user.truthy = false →
        authenticate s w req o =
          [.getTokenCall c, .setCredentials toks, .userinfoCall (some toks),
            .verifyCall args, .fail d.info]) ∧
      (d.err.truthy = false → d.user.truthy = true →
        authenticate s w req o =
          [.getTokenCall c, .setCredentials toks, .userinfoCall (some toks),
            .verifyCall args, .success d.user d.info]))) ∧
    (∀ ex : JVal, s._verify.run args = ([], some ex) →
      authenticate s w req o =
        [.getTokenCall c, .setCredentials toks, .userinfoCall (some toks),
          .verifyCall args, .error (.raw ex)]) := by
  have h1 := authenticate_code_branch s w req o q hq he hct
  rw [show q.code.getD "" = c from by rw [hc]; rfl] at h1
  have h2 := tokenStage_success s w c e toks hTok hOk
  have h3 := profileStage_success s w toks perr profile hui hpOk
  subst hargs
  constructor
  · intro d hrun
    have h4 := verifyStage_run s toks.access_token
      (jsOrNullV toks.refresh_token) profile [d] none hrun
    refine ⟨fun herr => ?_, fun herr huser => ?_, fun herr huser => ?_⟩
    · rw [h1, h2, h3, h4]
      simp only [List.map, throwTail, List.append_nil]
      rw [show verified d = Event.error (.raw d.err) from by
        unfold verified
        rw [if_pos herr]]
    · rw [h1, h2, h3, h4]
      simp only [List.map, throwTail, List.append_nil]
      rw [show verified d = Event.fail d.info from by
        unfold verified
        rw [if_neg (by simp [herr]), if_neg (by simp [huser])]]
    · rw [h1, h2, h3, h4]
      simp only [List.map, throwTail, List.append_nil]
      rw [show verified d = Event.success d.user d.info from by
        unfold verified
        rw [if_neg (by simp [herr]), if_pos huser]]
  · intro ex hrun
    have h4 := verifyStage_run s toks.access_token
      (jsOrNullV toks.refresh_token) profile [] (some ex) hrun
    rw [h1, h2, h3, h4]
    rfl

/-- A verify callback that synchronously reports "no user" through
`done(null, null, {message: "no match"})`. -/
def noUserVerify : VerifyFn :=
  { arity := 4
    run := fun _ =>
      ([{ err := .jnull, user := .jnull,
          info := .jobj [("message", .jstr "no match")] }], none) }

/-- The `sampleStrategy` record with the no-user verify callback. -/
def noUserStrategy : Strategy :=
  { sampleStrategy with _verify := noUserVerify }

/-- Witness for C7: `done(null, null, {message: "no match"})` makes the
attempt fail with that info object. -/
theorem claim7_witness :
    authenticate noUserStrategy sampleWorld reqCode none
      = [.getTokenCall "abc",
          .setCredentials { access_token := .jstr "AT1" },
          .userinfoCall (some { access_token := .jstr "AT1" }),
          .verifyCall [.val (.jstr "AT1"), .val .jnull,
            .val (.jobj [("id", .jstr "p1")])],
          .fail (.jobj [("message", .jstr "no match")])] :=
  (((claim7_done_resolution noUserStrategy sampleWorld reqCode none
      { code := some "abc" } "abc" .undefined { access_token := .jstr "AT1" }
      .undefined (.jobj [("id", .jstr "p1")])
      [.val (.jstr "AT1"), .val .jnull, .val (.jobj [("id", .jstr "p1")])]
      rfl rfl rfl rfl rfl rfl rfl rfl rfl).1
    { err := .jnull, user := .jnull,
      info := .jobj [("message", .jstr "no match")] } rfl).2.1 rfl rfl)

/-! ### Claim C8 -/

theorem createOAuthError_normal_form (parse : String → Except Unit JVal)
    (m : String) {err : JVal} (h : err.truthy = true) :
    _createOAuthError parse m err =
      (if (err.getFieldD "statusCode").truthy
          && (err.getFieldD "data").truthy then
        match parseErrorResponse parse (err.getFieldD "data")
            (err.getFieldD "statusCode") with
        | .ok (some ev) => .ok ev
        | .ok none => .ok (.wrap m err)
        | .error _ => .ok (.wrap m err)
      else .ok (.wrap m err)) := by
  unfold _createOAuthError
  rw [truthy_getField "statusCode" h, truthy_getField "data" h]
  dsimp only
  by_cases hcond : ((err.getFieldD "statusCode").truthy
      && (err.getFieldD "data").truthy) = true
  · rw [if_pos hcond, if_pos hcond]
    cases hres : parseErrorResponse parse (err.getFieldD "data")
        (err.getFieldD "statusCode") with
    | error u => rfl
    | ok r => cases r <;> rfl
  · rw [if_neg hcond, if_neg hcond]

theorem parseErrorResponse_of_parsed (parse : String → Except Unit JVal)
    (body status : JVal) (j je : JVal)
    (hp : parse (jvalToString body) = .ok j)
    (hj : j.getField "error" = .ok je) :
    parseErrorResponse parse body status =
      (if je.truthy then
        .ok (some (.ctor3 (j.getFieldD "error_description") je
          (j.getFieldD "error_uri")))
      else .ok none) := by
  unfold parseErrorResponse
  rw [hp]
  dsimp only
  rw [hj]

/-- Claim C8: on every truthy failure value, `_createOAuthError` is a
total function (deterministic, and it returns rather than throwing): if
the failure carries a truthy `statusCode` and `data` and the data
payload parses as JSON with a truthy `error` field, the result is
`new Error(error_description, error, error_uri)` of the payload
(whose message is the payload's `error_description`); if the payload
fails to parse, the parse result has no truthy `error` field, or
`statusCode`/`data` are missing or falsy, the failure is swallowed and
the generic `new Error(message, err)` is returned. -/
theorem claim8_createOAuthError (parse : String → Except Unit JVal)
    (m : String) (err : JVal) (h : err.truthy = true) :
    (∃ ev, _createOAuthError parse m err = .ok ev) ∧
    (∀ j je, (err.getFieldD "statusCode").truthy = true →
      (err.getFieldD "data").truthy = true →
      parse (jvalToString (err.getFieldD "data")) = .ok j →
      j.getField "error" = .ok je → je.truthy = true →
      _createOAuthError parse m err
        = .ok (.ctor3 (j.getFieldD "error_description") je
            (j.getFieldD "error_uri"))) ∧
    (¬((err.getFieldD "statusCode").truthy = true ∧
        (err.getFieldD "data").truthy = true) →
      _createOAuthError parse m err = .ok (.wrap m err)) ∧
    (∀ u : Unit, parse (jvalToString (err.getFieldD "data")) = .error u →
      _createOAuthError parse m err = .ok (.wrap m err)) ∧
    (∀ j je, parse (jvalToString (err.getFieldD "data")) = .ok j →
      j.getField "error" = .ok je → je.truthy = false →
      _createOAuthError parse m err = .ok (.wrap m err)) ∧
    (∀ j, parse (jvalToString (err.getFieldD "data")) = .ok j →
      j.getField "error" = .error () →
      _createOAuthError parse m err = .ok (.wrap m err)) := by
  have key := createOAuthError_normal_form parse m h
  refine ⟨?_, ?_, ?_, ?_, ?_, ?_⟩
  · rw [key]
    split
    · split
      · exact ⟨_, rfl⟩
      · exact ⟨_, rfl⟩
      · exact ⟨_, rfl⟩
    · exact ⟨_, rfl⟩
  · intro j je h1 h2 hp hj htr
    rw [key, if_pos (by rw [h1, h2]; rfl),
      parseErrorResponse_of_parsed parse _ _ j je hp hj, if_pos htr]
  · intro hn
    rw [key, if_neg (by simpa using hn)]
  · intro u hperr
    rw [key]
    by_cases hcond : ((err.getFieldD "statusCode").truthy
        && (err.getFieldD "data").truthy) = true
    · rw [if_pos hcond,
        show parseErrorResponse parse (err.getFieldD "data")
            (err.getFieldD "statusCode") = .error u from by
          unfold parseErrorResponse
          rw [hperr]]
    · rw [if_neg hcond]
  · intro j je hp hj hf
    rw [key]
    by_cases hcond : ((err.getFieldD "statusCode").truthy
        && (err.getFieldD "data").truthy) = true
    · rw [if_pos hcond,
        parseErrorResponse_of_parsed parse _ _ j je hp hj,
        if_neg (by simp [hf])]
    · rw [if_neg hcond]
  · intro j hp hj
    rw [key]
    by_cases hcond : ((err.getFieldD "statusCode").truthy
        && (err.getFieldD "data").truthy) = true
    · rw [if_pos hcond,
        show parseErrorResponse parse (err.getFieldD "data")
            (err.getFieldD "statusCode") = .error () from by
          unfold parseErrorResponse
          rw [hp]
          dsimp only
          rw [hj]]
    · rw [if_neg hcond]

/-- A model of `JSON.parse` defined on the one payload the witness
feeds it. -/
def oauthParse : String → Except Unit JVal := fun s =>
  if s = "\x7b\"error\":\"invalid_grant\",\"error_description\":\"bad code\"\x7d" then
    .ok (.jobj [("error", .jstr "invalid_grant"),
      ("error_description", .jstr "bad code")])
  else .error ()

/-- A token-exchange failure with `statusCode=400` and a JSON payload
reporting `invalid_grant` with description "bad code". -/
def oauthFailure : JVal :=
  .jobj [("statusCode", .jnum 400),
    ("data", .jstr "\x7b\"error\":\"invalid_grant\",\"error_description\":\"bad code\"\x7d")]

/-- A token-exchange failure whose data payload does not parse. -/
def badDataFailure : JVal :=
  .jobj [("statusCode", .jnum 400), ("data", .jstr "nope")]

/-- Witness for C8: the `invalid_grant` payload normalizes to an error
whose message is "bad code", and an unparsable payload falls back to the
generic wrapped error. -/
theorem claim8_witness :
    _createOAuthError oauthParse "Failed to obtain access token"
        oauthFailure
      = .ok (.ctor3 (.jstr "bad code") (.jstr "invalid_grant") .undefined) ∧
    errCtorMessage (.jstr "bad code") = "bad code" ∧
    _createOAuthError oauthParse "Failed to obtain access token"
        badDataFailure
      = .ok (.wrap "Failed to obtain access token" badDataFailure) :=
  ⟨(claim8_createOAuthError oauthParse "Failed to obtain access token"
      oauthFailure rfl).2.1
      (.jobj [("error", .jstr "invalid_grant"),
        ("error_description", .jstr "bad code")])
      (.jstr "invalid_grant") rfl rfl rfl rfl rfl,
    rfl,
    (claim8_createOAuthError oauthParse "Failed to obtain access token"
      badDataFailure rfl).2.2.2.1 () rfl⟩

/-! ### Claim C9 -/

/-- Construction options that carry a `scope`. -/
def scopedCtorOptions : CtorOptions :=
  { clientID := some "id"
    clientSecret := some "sec"
    redirectURL := some "https://cb"
    scope := some "email" }

/-- The strategy the constructor builds from `scopedCtorOptions`: the
construction-time `scope` option is not stored anywhere. -/
def scopedStrategy : Strategy :=
  { _verify := sampleVerify
    oauth2Client := ⟨"id", "sec", "https://cb"⟩ }

theorem truthyS_some_getD {x : Option String} (h : truthyS x = true) :
    some (x.getD "") = x := by
  cases x with
  | none => exact absurd h (by decide)
  | some s => rfl

theorem authorizationParams_keys (s : Strategy) (o : AuthOptions) :
    ∀ kv ∈ s.authorizationParams o,
      kv.1 = "scope" ∨ kv.1 = "access_type" := by
  intro kv hkv
  unfold Strategy.authorizationParams at hkv
  dsimp only at hkv
  rcases List.mem_append.mp hkv with h | h
  · left
    split at h
    · simpa using congrArg Prod.fst (List.mem_singleton.mp h)
    · exact absurd h (List.not_mem_nil kv)
  · right
    split at h
    · simpa using congrArg Prod.fst (List.mem_singleton.mp h)
    · exact absurd h (List.not_mem_nil kv)

theorem authorizationParams_lookup_scope (s : Strategy) (o : AuthOptions) :
    (s.authorizationParams o).lookup "scope"
      = (if truthyS (jsOrS o.scope s._scope) then jsOrS o.scope s._scope
        else none) := by
  unfold Strategy.authorizationParams
  dsimp only
  split
  · next htr => simp [List.lookup, truthyS_some_getD htr]
  · split <;> simp [List.lookup]

theorem authorizationParams_lookup_accessType (s : Strategy)
    (o : AuthOptions) :
    (s.authorizationParams o).lookup "access_type"
      = (if truthyS (jsOrS o.accessType o.access_type) then
          jsOrS o.accessType o.access_type
        else none) := by
  unfold Strategy.authorizationParams
  dsimp only
  split <;> split
  · next h2 => simp [List.lookup, truthyS_some_getD h2]
  · simp [List.lookup]
  · next h2 => simp [List.lookup, truthyS_some_getD h2]
  · simp [List.lookup]

theorem mk_strategy_defaults (a1 : CtorArg) (a2 : Option VerifyFn)
    (st : Strategy) (hmk : GoogleAPIsStrategy a1 a2 = .ok st) :
    st._scope = none ∧ st._passReqToCallback = false := by
  unfold GoogleAPIsStrategy at hmk
  rcases a1 with o | f | _ <;> dsimp only at hmk <;>
    repeat' split at hmk
  all_goals first
    | exact Except.noConfusion hmk
    | (injection hmk with h
       subst h
       exact ⟨rfl, rfl⟩)

/-- Counterexample to claim C9 as stated: the constructor never assigns
the strategy-level `_scope` field, so a strategy constructed with
`scope: "email"` still yields an empty parameter mapping when
`authorizationParams` is called without a call-time scope, although the
claim demands a `scope` key from the construction-time default. -/
theorem claim9_counterexample :
    scopedCtorOptions.scope = some "email" ∧
    (GoogleAPIsStrategy (.opts scopedCtorOptions) (some sampleVerify)).map
      (fun s => s.authorizationParams {}) = .ok [] :=
  ⟨rfl, rfl⟩

/-- Claim C9 (amended): `authorizationParams` returns a mapping whose
keys are at most `scope` and `access_type`; the `scope` entry holds
`options.scope || this._scope` when that is truthy and is omitted
otherwise; the `access_type` entry holds
`options.accessType || options.access_type` when that is truthy and is
omitted otherwise; and the constructor never assigns `_scope`, so for
any constructor-built strategy the `scope` entry comes from the
call-time options alone (the construction-time `scope` option is
ignored). -/
theorem claim9_amended_params (s : Strategy) (o : AuthOptions)
    (a1 : CtorArg) (a2 : Option VerifyFn) (st : Strategy)
    (hmk : GoogleAPIsStrategy a1 a2 = .ok st) :
    (∀ kv ∈ s.authorizationParams o,
      kv.1 = "scope" ∨ kv.1 = "access_type") ∧
    (s.authorizationParams o).lookup "scope"
      = (if truthyS (jsOrS o.scope s._scope) then jsOrS o.scope s._scope
        else none) ∧
    (s.authorizationParams o).lookup "access_type"
      = (if truthyS (jsOrS o.accessType o.access_type) then
          jsOrS o.accessType o.access_type
        else none) ∧
    st._scope = none ∧
    (st.authorizationParams o).lookup "scope"
      = (if truthyS o.scope then o.scope else none) := by
  obtain ⟨hscope, _⟩ := mk_strategy_defaults a1 a2 st hmk
  refine ⟨authorizationParams_keys s o, authorizationParams_lookup_scope s o,
    authorizationParams_lookup_accessType s o, hscope, ?_⟩
  rw [authorizationParams_lookup_scope st o, hscope]
  by_cases hsc : truthyS o.scope = true
  · have hj : jsOrS o.scope none = o.scope := by
      unfold jsOrS
      rw [if_pos hsc]
    rw [hj, if_pos hsc]
  · have hj : jsOrS o.scope none = none := by
      unfold jsOrS
      rw [if_neg hsc]
    rw [hj, if_neg hsc]
    simp [truthyS]

/-- Witness for the amended C9: with call-time options
`{scope: "a b", accessType: "offline"}` the mapping carries exactly
those two entries, and a constructor-built strategy has no `_scope`. -/
theorem claim9_amended_witness :
    (sampleStrategy.authorizationParams
        { scope := some "a b", accessType := some "offline" }).lookup "scope"
      = some "a b" ∧
    (sampleStrategy.authorizationParams
        { scope := some "a b", accessType := some "offline" }).lookup
        "access_type"
      = some "offline" ∧
    scopedStrategy._scope = none :=
  ⟨((claim9_amended_params sampleStrategy
      { scope := some "a b", accessType := some "offline" }
      (.opts scopedCtorOptions) (some sampleVerify)
      (scopedStrategy) rfl).2.1).trans (by decide),
    ((claim9_amended_params sampleStrategy
      { scope := some "a b", accessType := some "offline" }
      (.opts scopedCtorOptions) (some sampleVerify)
      (scopedStrategy) rfl).2.2.1).trans (by decide),
    (claim9_amended_params sampleStrategy
      { scope := some "a b", accessType := some "offline" }
      (.opts scopedCtorOptions) (some sampleVerify)
      (scopedStrategy) rfl).2.2.2.1⟩

/-! ### Claim C10 -/

theorem verifyCall_mem_verifyStage {s : Strategy} {a r p : JVal}
    {args : List VArg} (h : Event.verifyCall args ∈ verifyStage s a r p) :
    args = dispatchArgs s a r p := by
  unfold verifyStage at h
  dsimp only at h
  rcases List.mem_cons.mp h with h | h
  · injection h
  · exfalso
    rcases List.mem_append.mp h with h | h
    · obtain ⟨d, _, hd⟩ := List.mem_map.mp h
      have hv := verified_not_verifyCall d
      rw [hd] at hv
      exact absurd hv (by simp [Event.isVerifyCall])
    · cases hopt : (s._verify.run (dispatchArgs s a r p)).2 with
      | none =>
        rw [hopt] at h
        exact absurd h (List.not_mem_nil _)
      | some ex =>
        rw [hopt] at h
        simp [throwTail] at h

theorem verifyCall_mem_profileStage {s : Strategy} {w : World}
    {toks : Tokens} {args : List VArg}
    (h : Event.verifyCall args ∈ profileStage s w toks) :
    ∃ a r p, args = dispatchArgs s a r p := by
  unfold profileStage at h
  dsimp only at h
  rcases List.mem_cons.mp h with h | h
  · exact absurd h (by simp)
  · split at h
    · simp at h
    · exact ⟨_, _, _, verifyCall_mem_verifyStage h⟩

theorem verifyCall_mem_tokenStage {s : Strategy} {w : World} {c : String}
    {args : List VArg} (h : Event.verifyCall args ∈ tokenStage s w c) :
    ∃ a r p, args = dispatchArgs s a r p := by
  unfold tokenStage at h
  dsimp only at h
  rcases List.mem_cons.mp h with h | h
  · exact absurd h (by simp)
  · split at h
    · split at h <;> simp at h
    · rcases List.mem_cons.mp h with h | h
      · exact absurd h (by simp)
      · exact verifyCall_mem_profileStage h

theorem verifyCall_mem_authenticate {s : Strategy} {w : World}
    {req : Request} {o : Option AuthOptions} {args : List VArg}
    (h : Event.verifyCall args ∈ authenticate s w req o) :
    ∃ a r p, args = dispatchArgs s a r p := by
  obtain ⟨qopt⟩ := req
  unfold authenticate at h
  cases qopt with
  | none => simp [redirectStage] at h
  | some q =>
    dsimp only at h
    split at h
    · split at h <;> simp at h
    · split at h
      · exact verifyCall_mem_tokenStage h
      · simp [redirectStage] at h

/-- Claim C10: every strategy the exported constructor builds has an
unassigned (falsy) `_passReqToCallback` flag, so `authenticate` always
takes the passthrough-disabled dispatch branch and the verify callback
is never invoked with the request object among its arguments, whatever
the construction options, collaborator behaviour and request. -/
theorem claim10_no_passthrough (a1 : CtorArg) (a2 : Option VerifyFn)
    (st : Strategy) (hmk : GoogleAPIsStrategy a1 a2 = .ok st)
    (w : World) (req : Request) (o : Option AuthOptions) (args : List VArg)
    (hmem : Event.verifyCall args ∈ authenticate st w req o) :
    st._passReqToCallback = false ∧ VArg.reqArg ∉ args := by
  have hflag := (mk_strategy_defaults a1 a2 st hmk).2
  refine ⟨hflag, ?_⟩
  obtain ⟨a, r, p, hargs⟩ := verifyCall_mem_authenticate hmem
  subst hargs
  unfold dispatchArgs
  rw [if_neg (by simp [hflag])]
  split <;> simp

/-- Witness for C10: the constructor-built `sampleStrategy` runs the
`code=abc` flow without the request among the verify arguments. -/
theorem claim10_witness :
    sampleStrategy._passReqToCallback = false ∧
    VArg.reqArg ∉ [VArg.val (.jstr "AT1"), VArg.val .jnull,
      VArg.val (.jobj [("id", .jstr "p1")])] :=
  claim10_no_passthrough (.opts scopedCtorOptions) (some sampleVerify)
    sampleStrategy rfl sampleWorld reqCode none
    [VArg.val (.jstr "AT1"), VArg.val .jnull,
      VArg.val (.jobj [("id", .jstr "p1")])]
    (by simp [show authenticate sampleStrategy sampleWorld reqCode none
        = [.getTokenCall "abc",
            .setCredentials { access_token := .jstr "AT1" },
            .userinfoCall (some { access_token := .jstr "AT1" }),
            .verifyCall [VArg.val (.jstr "AT1"), VArg.val .jnull,
              VArg.val (.jobj [("id", .jstr "p1")])],
            .success (.jstr "u") (.jstr "i")] from rfl])

end GoogleAPIs
